import Mathlib

/-!
Shallow embedding of `src/tracker/src/App.jsx` (single-file React expense
tracker).  The view glue (JSX rendering) is out of scope; the embedded parts
are the module-level helper functions and the event handlers that the spec's
claims are about:

  * `loadExpenses`              (App.jsx lines 17-26)
  * `monthKeyFromDate`          (lines 32-36)
  * `formatCurrency`            (lines 38-41), i.e. `Number(n).toLocaleString
    ("en-US", minimumFractionDigits 2, maximumFractionDigits 2)`
  * the rollover `useEffect`    (lines 57-68) -> `rolloverCheck`
  * `addExpense`                (lines 70-91)
  * `removeExpense`             (lines 93-96)
  * `expensesForMonth`          (lines 98-101)
  * `totalForMonth`             (lines 103-106)
  * `handleSendMonthly`         (lines 108-123)
  * the reminder dismiss button (lines 169-174) -> `dismissReminder`

Modelling conventions:
  * JS numbers are modelled as `ℚ`, with `NaN` as `Option.none` (`Option ℚ`).
    Plain decimal literals are exact in this range, so the arithmetic the
    program performs (addition of entered amounts) is represented exactly.
  * Dynamically-typed values coming from JSON storage are modelled by the
    inductive `Json`.  `Number(v)` coercion is modelled by `toNumber`; the
    object/array-to-primitive coercion path of JS is not modelled (it maps to
    NaN here), and string-to-number parsing covers plain decimal literals
    (no hex / exponent / Infinity forms) — all inputs used in theorems stay
    inside this faithfully modelled fragment.
  * `localStorage.getItem` yields `Option String`; the marker cell for
    `LAST_SENT_KEY` is threaded explicitly as `Option String`.
  * `Date` values are modelled by their (UTC) components in `JsDate`; the
    browser session is assumed to run in the UTC timezone so that
    `getFullYear`/`getMonth` agree with the components serialized by
    `toISOString`.
  * Decimal rendering of numbers (`String(n)`, `padStart`, `toISOString`,
    `toLocaleString`) is implemented directly on digit characters.
-/

/-- JSON-ish dynamic value as stored/parsed by the program. -/
inductive Json where
  | null : Json
  | bool (b : Bool) : Json
  | num (q : ℚ) : Json
  | str (s : String) : Json
  | arr (xs : List Json) : Json
  | obj (fields : List (String × Json)) : Json

/-- JS truthiness of a `Json` value (objects and arrays are truthy). -/
def jsTruthy : Json → Bool
  | Json.null => false
  | Json.bool b => b
  | Json.num q => decide (q ≠ 0)
  | Json.str s => decide (s ≠ "")
  | Json.arr _ => true
  | Json.obj _ => true

/-- Digit characters of a natural number, least significant first; `fuel`
bounds the recursion (any `fuel > n` is enough). -/
def natDigitsRevAux : Nat → Nat → List Char
  | 0, _ => []
  | fuel + 1, n => if n < 10 then [Nat.digitChar n]
      else Nat.digitChar (n % 10) :: natDigitsRevAux fuel (n / 10)

/-- Decimal rendering of a natural number (model of JS number-to-string for
integral values). -/
def natStr (n : Nat) : String := String.mk (natDigitsRevAux (n + 1) n).reverse

/-- Decimal rendering of an integer (model of `String(y)` in a template
literal). -/
def intStr (y : Int) : String :=
  if y < 0 then "-" ++ natStr (-y).toNat else natStr y.toNat

/-- Model of `String.prototype.padStart(2, "0")`. -/
def padStart2 (s : String) : String :=
  String.mk (List.replicate (2 - s.length) '0') ++ s

/-- A `Date` value, by its UTC components.  `month0` is what `getMonth()`
returns (0 = January). -/
structure JsDate where
  year : Int
  month0 : Nat
  day : Nat
  hour : Nat
  minute : Nat
  second : Nat
  ms : Nat
deriving DecidableEq

/-- App.jsx lines 32-36: `monthKeyFromDate(d)` returns
`String(getFullYear()) ++ "-" ++ String(getMonth()+1).padStart(2,"0")`. -/
def monthKeyFromDate (d : JsDate) : String :=
  intStr d.year ++ "-" ++ padStart2 (natStr (d.month0 + 1))

/-- Two-digit zero-padded rendering used by `toISOString`. -/
def pad2 (n : Nat) : String := String.mk [Nat.digitChar (n / 10 % 10), Nat.digitChar (n % 10)]

/-- Three-digit zero-padded rendering used by `toISOString` for milliseconds. -/
def pad3 (n : Nat) : String :=
  String.mk [Nat.digitChar (n / 100 % 10), Nat.digitChar (n / 10 % 10), Nat.digitChar (n % 10)]

/-- ECMAScript year serialization inside `toISOString`: four digits for
0..9999, otherwise a sign followed by six digits (expanded years). -/
def isoYearStr (y : Int) : String :=
  if 0 ≤ y ∧ y ≤ 9999 then
    String.mk (List.replicate (4 - (natStr y.toNat).length) '0') ++ natStr y.toNat
  else if y < 0 then
    "-" ++ String.mk (List.replicate (6 - (natStr (-y).toNat).length) '0') ++ natStr (-y).toNat
  else
    "+" ++ String.mk (List.replicate (6 - (natStr y.toNat).length) '0') ++ natStr y.toNat

/-- Model of `Date.prototype.toISOString()` (always UTC, trailing `Z`). -/
def toISOString (d : JsDate) : String :=
  isoYearStr d.year ++ "-" ++ pad2 (d.month0 + 1) ++ "-" ++ pad2 d.day ++ "T" ++
    pad2 d.hour ++ ":" ++ pad2 d.minute ++ ":" ++ pad2 d.second ++ "." ++ pad3 d.ms ++ "Z"

/-- App.jsx line 58-60 condition, i.e. the rollover detector evaluated once
per session start: `lastSent && lastSent !== nowMonth`.  `true` is the
`REMINDER_PENDING` outcome (`setShowMonthlyReminder(true)`), `false` is
`NO_REMINDER`.  A `none` marker is JS `null`; the truthiness test also
treats an empty string as absent. -/
def rolloverCheck (lastSent : Option String) (nowMonth : String) : Bool :=
  match lastSent with
  | none => false
  | some last => last != "" && last != nowMonth

/-- Value of a list of decimal digit characters, most significant first. -/
def digitsToNat (cs : List Char) : Nat := cs.foldl (fun a c => a * 10 + (c.toNat - 48)) 0

/-- Model of `String.prototype.trim()`: strip whitespace from both ends. -/
def jsTrim (s : String) : String :=
  String.mk ((s.data.dropWhile Char.isWhitespace).reverse.dropWhile Char.isWhitespace).reverse

/-- Numeric parse of the character list after an optional sign: `digits`,
`digits.digits`, `digits.` or `.digits`; anything else is NaN (`none`). -/
def jsNumberChars (cs : List Char) : Option ℚ :=
  match cs.span Char.isDigit with
  | (intPart, rest) =>
    match rest with
    | [] => if intPart.isEmpty then none else some ((digitsToNat intPart : ℚ))
    | '.' :: frac =>
      if frac.all Char.isDigit && !(intPart.isEmpty && frac.isEmpty) then
        some ((digitsToNat intPart : ℚ) + (digitsToNat frac : ℚ) / ((10 : ℚ) ^ frac.length))
      else none
    | _ => none

/-- Model of `Number(s)` on a string: trimmed empty string is `0`, otherwise
an optionally signed plain decimal literal; `none` is NaN.  (Hex, exponent
and `Infinity` forms of JS are outside the modelled fragment.) -/
def jsNumber (s : String) : Option ℚ :=
  match (jsTrim s).data with
  | [] => some 0
  | '-' :: rest => (jsNumberChars rest).map (fun q => -q)
  | '+' :: rest => jsNumberChars rest
  | cs => jsNumberChars cs

/-- Model of `Number(v)` on a dynamic value.  The object/array-to-primitive
coercion path is not modelled (mapped to NaN); no theorem input uses it. -/
def toNumber : Json → Option ℚ
  | Json.null => some 0
  | Json.bool b => some (if b then 1 else 0)
  | Json.num q => some q
  | Json.str s => jsNumber s
  | Json.arr _ => none
  | Json.obj _ => none

/-- An expense record as created by `addExpense` / stored in the ledger:
`{ id, amount, reason, notes, dateISO }` (App.jsx lines 77-83).  `amount`
is kept as a dynamic value because entries read back from storage are not
shape-validated. -/
structure Expense where
  id : String
  amount : Json
  reason : String
  notes : String
  dateISO : String

/-- Model of `String.prototype.startsWith`: code-point prefix test. -/
def jsStartsWith (s pre : String) : Bool := pre.data.isPrefixOf s.data

/-- App.jsx lines 98-101: `expensesForMonth(monthKey)` filters the ledger by
`x.dateISO.startsWith(monthKey)` (textual prefix match on the stored ISO
timestamp). -/
def expensesForMonth (expenses : List Expense) (monthKey : String) : List Expense :=
  expenses.filter (fun x => jsStartsWith x.dateISO monthKey)

/-- JS `+` on numbers with NaN propagation (`none` is NaN). -/
def jsAdd : Option ℚ → Option ℚ → Option ℚ
  | some a, some b => some (a + b)
  | _, _ => none

/-- App.jsx lines 103-106: `totalForMonth(monthKey)` is
`expensesForMonth(monthKey).reduce((s, it) => s + Number(it.amount || 0), 0)`. -/
def totalForMonth (expenses : List Expense) (monthKey : String) : Option ℚ :=
  (expensesForMonth expenses monthKey).foldl
    (fun s it => jsAdd s (toNumber (if jsTruthy it.amount then it.amount else Json.num 0)))
    (some 0)

/-- Outcome of an add-intent: whether it was rejected (alert shown, nothing
persisted) and the resulting ledger. -/
structure AddOutcome where
  rejected : Bool
  expenses : List Expense

/-- App.jsx lines 70-91: `addExpense`.  `amt = Number(amount)`; the intent is
rejected when `!amt || !reason.trim()` (i.e. `amt` is NaN or `0`, or the
trimmed reason is empty); otherwise the new item is prepended to the ledger.
The fresh id (`Date.now() + "-" + random`) and the creation instant
(`new Date()`) are passed in as `newId` and `now`; the draft-field clearing
and `setSelectedMonth` calls touch only transient view state and are not
modelled. -/
def addExpense (amount reason notes : String) (expenses : List Expense)
    (newId : String) (now : JsDate) : AddOutcome :=
  match jsNumber amount with
  | none => { rejected := true, expenses := expenses }
  | some amt =>
    if amt = 0 || jsTrim reason = "" then
      { rejected := true, expenses := expenses }
    else
      { rejected := false,
        expenses :=
          { id := newId, amount := Json.num amt, reason := jsTrim reason,
            notes := jsTrim notes, dateISO := toISOString now } :: expenses }

/-- App.jsx lines 93-96: `removeExpense(id)` asks for confirmation and, when
confirmed, keeps exactly the entries with `x.id !== id`.  The `confirm`
dialog's answer is the `confirmed` argument. -/
def removeExpense (confirmed : Bool) (expenses : List Expense) (id : String) : List Expense :=
  if confirmed then expenses.filter (fun x => x.id != id) else expenses

/-- App.jsx lines 17-26: `loadExpenses`.  The argument is the observable
outcome of `localStorage.getItem(STORAGE_KEY)` followed by `JSON.parse`:
`none` when no item is stored (or the stored string is empty, which is falsy
and would not parse anyway), `some (Except.error e)` when `JSON.parse`
throws (the `catch` branch: logged and mapped to `[]`), and
`some (Except.ok v)` when parsing succeeds, in which case the parsed value
is returned without any shape validation. -/
def loadExpenses (stored : Option (Except String Json)) : Json :=
  match stored with
  | none => Json.arr []
  | some (Except.error _) => Json.arr []
  | some (Except.ok v) => v

/-- Model of `m.split("-")`: split the string at every `-`. -/
def splitDashAux : List Char → List Char → List String
  | [], acc => [String.mk acc.reverse]
  | c :: rest, acc =>
    if c = '-' then String.mk acc.reverse :: splitDashAux rest []
    else splitDashAux rest (c :: acc)

/-- Model of `m.split("-")` on a string. -/
def splitDash (s : String) : List String := splitDashAux s.data []

/-- JS array indexing as used by destructuring `const [yr, mon] = parts`:
a missing element is `undefined`, which renders as `"undefined"` inside a
template literal. -/
def jsIndex (xs : List String) (i : Nat) : String := (xs.get? i).getD "undefined"

/-- App.jsx line 14: the recipient phone constant `ADMIN_PHONE`. -/
def ADMIN_PHONE : String := "972545317545"

/-- App.jsx line 15: the fixed Hebrew message label constant (named
`FIXED_WHATSAPP_MESSAGE_*` in the source, completed with month and total). -/
def FIXED_WHATSAPP_MESSAGE_LABEL : String := "סיכום הוצאות לחודש"

/-- App.jsx line 122: the alert text shown after opening the composer. -/
def sentAlertText : String := "נפתח חלון WhatsApp לשליחה. אנא אשר ושלח בתוך WhatsApp."

/-- Rounding to the nearest integer, ties away from zero — the rounding
Intl.NumberFormat applies when truncating to `maximumFractionDigits`. -/
def roundHalfExpand (q : ℚ) : ℤ := if q < 0 then -⌊-q + 1 / 2⌋ else ⌊q + 1 / 2⌋

/-- Insert `,` after every three characters of a reversed digit list — the
en-US thousands grouping, working from the least significant digit. -/
def group3Rev : List Char → List Char
  | a :: b :: c :: d :: rest => a :: b :: c :: ',' :: group3Rev (d :: rest)
  | l => l

/-- Model of `Number(n).toLocaleString("en-US", { minimumFractionDigits: 2,
maximumFractionDigits: 2 })` for a (non-NaN) number: round to cents, group
the integer part with commas, and always render exactly two fraction
digits. -/
def toLocaleStringEnUS2 (q : ℚ) : String :=
  (if roundHalfExpand (q * 100) < 0 then "-" else "") ++
    String.mk (group3Rev (natStr ((roundHalfExpand (q * 100)).natAbs / 100)).data.reverse).reverse ++
    String.mk ['.', Nat.digitChar ((roundHalfExpand (q * 100)).natAbs % 100 / 10),
      Nat.digitChar ((roundHalfExpand (q * 100)).natAbs % 100 % 10)]

/-- App.jsx lines 38-41: `formatCurrency(n)`, with NaN rendered as `"NaN"`. -/
def formatCurrency : Option ℚ → String
  | none => "NaN"
  | some q => toLocaleStringEnUS2 q

/-- App.jsx lines 112-114: the summary body text built by
`handleSendMonthly` from the chosen month key and the computed total:
label, `mon/yr` human month, and the formatted total. -/
def buildSummaryBody (m : String) (total : Option ℚ) : String :=
  FIXED_WHATSAPP_MESSAGE_LABEL ++ " " ++ jsIndex (splitDash m) 1 ++ "/" ++ jsIndex (splitDash m) 0 ++
    "\nסה\"כ הוצאות: " ++ formatCurrency total ++ "\n(נשלח מהאתר)"

/-- Hex digit (uppercase) used by percent-encoding. -/
def hexDigitChar (n : Nat) : Char := if n < 10 then Char.ofNat (48 + n) else Char.ofNat (55 + n)

/-- Bytes that `encodeURIComponent` leaves unescaped: ASCII alphanumerics
and `- _ . ! ~ * ' ( )`. -/
def isUnescapedByte (b : Nat) : Bool :=
  (48 ≤ b && b ≤ 57) || (65 ≤ b && b ≤ 90) || (97 ≤ b && b ≤ 122) ||
    b == 45 || b == 95 || b == 46 || b == 33 || b == 126 || b == 42 ||
    b == 39 || b == 40 || b == 41

/-- Percent-encoding of a single UTF-8 byte. -/
def encodeByte (b : Nat) : String :=
  if isUnescapedByte b then String.mk [Char.ofNat b]
  else String.mk ['%', hexDigitChar (b / 16), hexDigitChar (b % 16)]

/-- Model of `encodeURIComponent`: UTF-8 encode and percent-escape every
byte outside the unescaped set. -/
def encodeURIComponent (s : String) : String :=
  s.toUTF8.toList.foldl (fun acc b => acc ++ encodeByte b.toNat) ""

/-- One observable side effect of `handleSendMonthly`, in program order. -/
inductive Event where
  | openUrl (url : String)
  | setMarker (key : String)
  | alertMsg (msg : String)

/-- Result of a `handleSendMonthly` call: whether the call threw (the
`window.open` capability being unavailable is modelled as a thrown
exception, which propagates — there is no try/catch in the handler),
the marker cell afterwards, the reminder flag afterwards, and the ordered
list of side effects that actually happened. -/
structure DispatchOutcome where
  threw : Bool
  lastSent : Option String
  showMonthlyReminder : Bool
  events : List Event

/-- App.jsx lines 108-123: `handleSendMonthly(monthToSend)`.  `m` is
`monthToSend || selectedMonth` (JS `||`, so an empty string also falls back);
the body is built from `m` and `totalForMonth(m)`; then, in order:
`window.open(url)`, `localStorage.setItem(LAST_SENT_KEY, monthKeyFromDate())`
— the *current* month, not `m` — and `setShowMonthlyReminder(false)` plus a
confirmation alert.  When `window.open` throws (`openOk = false`) the
statements after it do not run: the marker and the flag keep their previous
values `lastSent` / `showReminder`. -/
def handleSendMonthly (openOk : Bool) (expenses : List Expense) (selectedMonth : String)
    (showReminder : Bool) (lastSent : Option String) (now : JsDate)
    (monthToSend : Option String) : DispatchOutcome :=
  let m := match monthToSend with
    | some s => if s = "" then selectedMonth else s
    | none => selectedMonth
  let body := buildSummaryBody m (totalForMonth expenses m)
  let url := "https://wa.me/" ++ ADMIN_PHONE ++ "?text=" ++ encodeURIComponent body
  if openOk then
    { threw := false, lastSent := some (monthKeyFromDate now), showMonthlyReminder := false,
      events := [Event.openUrl url, Event.setMarker (monthKeyFromDate now),
        Event.alertMsg sentAlertText] }
  else
    { threw := true, lastSent := lastSent, showMonthlyReminder := showReminder, events := [] }

/-- Transient per-session state held by the `App` component (draft entry
fields omitted — no claim mentions them). -/
structure SessionState where
  expenses : List Expense
  selectedMonth : String
  showMonthlyReminder : Bool

/-- App.jsx lines 169-174: the reminder dismiss button handler.  Its body is
exactly `setShowMonthlyReminder(false)`; the marker cell is passed through
untouched. -/
def dismissReminder (st : SessionState) (lastSent : Option String) :
    SessionState × Option String :=
  ({ st with showMonthlyReminder := false }, lastSent)

/-- Read exactly `k` decimal digits off the front of a character list,
accumulating their value. -/
def takeDigits : Nat → List Char → Nat → Option (Nat × List Char)
  | 0, cs, acc => some (acc, cs)
  | k + 1, c :: cs, acc =>
    if c.isDigit then takeDigits k cs (acc * 10 + (c.toNat - 48)) else none
  | _ + 1, [], _ => none

/-- After the year of an ISO-8601 timestamp: expect `-MM` with a valid month. -/
def parseMonthAfterYear (y : Int) (cs : List Char) : Option (Int × Nat) :=
  match cs with
  | '-' :: rest =>
    (match takeDigits 2 rest 0 with
     | some (m, _) => if 1 ≤ m ∧ m ≤ 12 then some (y, m) else none
     | none => none)
  | _ => none

/-- Year and month components of an ISO-8601 timestamp string, as serialized
by `toISOString`: a four-digit year, or a sign followed by six digits
(expanded years), then `-MM`. -/
def parseISOYearMonth (s : String) : Option (Int × Nat) :=
  match s.data with
  | '+' :: rest =>
    (match takeDigits 6 rest 0 with
     | some (y, rest2) => parseMonthAfterYear (y : Int) rest2
     | none => none)
  | '-' :: rest =>
    (match takeDigits 6 rest 0 with
     | some (y, rest2) => parseMonthAfterYear (-(y : Int)) rest2
     | none => none)
  | cs =>
    (match takeDigits 4 cs 0 with
     | some (y, rest2) => parseMonthAfterYear (y : Int) rest2
     | none => none)

/-- The canonical MonthKey denoting year `y`, month `m` — the same rendering
`monthKeyFromDate` uses. -/
def monthKeyOfYM (y : Int) (m : Nat) : String := intStr y ++ "-" ++ padStart2 (natStr m)

/-- Second definition for the refinement comparison of the month filter: it
follows the spec's words (§4.2), "occurredAt falls within the calendar month
denoted by MonthKey, computed from the timestamp's own year/month, not by
string prefix matching": an entry is selected iff the year and month
components carried by its stored timestamp denote exactly the given
MonthKey. -/
def entriesForMonthSpec (expenses : List Expense) (monthKey : String) : List Expense :=
  expenses.filter (fun x =>
    match parseISOYearMonth x.dateISO with
    | some (y, m) => monthKeyOfYM y m == monthKey
    | none => false)

/-- The rational carried by a numeric amount (`0` for non-numeric ones);
used only to state the sum that `totalForMonth` computes on numeric
ledgers. -/
def amountQ (e : Expense) : ℚ :=
  match e.amount with
  | Json.num q => q
  | _ => 0

/-- C1: at session start the rollover detector yields NO_REMINDER when the
persisted last-sent marker is absent, NO_REMINDER when the marker equals the
current MonthKey, and REMINDER_PENDING exactly when the marker is present
and differs from the current MonthKey.  Marker values written by the program
are MonthKeys, hence non-empty, which the hypothesis records (JS truthiness
would additionally treat an empty stored string as absent). -/
theorem rollover_detector_cases (last : Option String) (current : String)
    (hval : ∀ l, last = some l → l ≠ "") :
    rolloverCheck last current = true ↔ ∃ l, last = some l ∧ l ≠ current := by
  cases last with
  | none => simp [rolloverCheck]
  | some l =>
    have hl : l ≠ "" := hval l rfl
    simp [rolloverCheck, hl]

theorem rollover_detector_cases_witness :
    rolloverCheck (some "2025-08") "2025-09" = true :=
  (rollover_detector_cases (some "2025-08") "2025-09"
      (fun l hl => by cases hl; decide)).mpr ⟨"2025-08", rfl, by decide⟩

/-- C2: a successful dispatch — for any dispatched month, including a
historical one — sets the persisted marker to the current session's MonthKey
and clears the reminder flag; afterwards the detector yields NO_REMINDER at
any session start that happens while the current MonthKey is still the
same (the session-start effect only reads the marker, so this covers every
later session of the month). -/
theorem dispatch_marks_current_month (expenses : List Expense) (selectedMonth : String)
    (showReminder : Bool) (lastSent : Option String) (now : JsDate)
    (monthToSend : Option String) :
    (handleSendMonthly true expenses selectedMonth showReminder lastSent now monthToSend).lastSent
        = some (monthKeyFromDate now) ∧
    (handleSendMonthly true expenses selectedMonth showReminder lastSent now
        monthToSend).showMonthlyReminder = false ∧
    ∀ later : JsDate, monthKeyFromDate later = monthKeyFromDate now →
      rolloverCheck
        (handleSendMonthly true expenses selectedMonth showReminder lastSent now
          monthToSend).lastSent (monthKeyFromDate later) = false := by
  refine ⟨rfl, rfl, ?_⟩
  intro later h
  simp [handleSendMonthly, rolloverCheck, h]

theorem dispatch_marks_current_month_witness :
    (handleSendMonthly true [] "2025-09" true (some "2025-08") ⟨2025, 8, 1, 0, 0, 0, 0⟩
        none).lastSent = some "2025-09" ∧
    rolloverCheck
      (handleSendMonthly true [] "2025-09" true (some "2025-08") ⟨2025, 8, 1, 0, 0, 0, 0⟩
        none).lastSent "2025-09" = false := by
  have h := dispatch_marks_current_month [] "2025-09" true (some "2025-08")
    ⟨2025, 8, 1, 0, 0, 0, 0⟩ none
  exact ⟨h.1.trans (by rfl), h.2.2 ⟨2025, 8, 1, 0, 0, 0, 0⟩ rfl⟩

/-- C3: in `handleSendMonthly` the external delivery invocation
(`window.open`) always happens before the marker update — in the success
trace the `openUrl` event strictly precedes the `setMarker` event — and if
the invocation fails (throws), the marker is not updated, the reminder flag
keeps its previous value, and no marker-write event occurs at all. -/
theorem dispatch_invocation_precedes_marker (openOk : Bool) (expenses : List Expense)
    (selectedMonth : String) (showReminder : Bool) (lastSent : Option String)
    (now : JsDate) (monthToSend : Option String) :
    (openOk = true →
      ∃ u a, (handleSendMonthly openOk expenses selectedMonth showReminder lastSent now
          monthToSend).events
        = [Event.openUrl u, Event.setMarker (monthKeyFromDate now), Event.alertMsg a]) ∧
    (openOk = false →
      (handleSendMonthly openOk expenses selectedMonth showReminder lastSent now
          monthToSend).threw = true ∧
      (handleSendMonthly openOk expenses selectedMonth showReminder lastSent now
          monthToSend).lastSent = lastSent ∧
      (handleSendMonthly openOk expenses selectedMonth showReminder lastSent now
          monthToSend).showMonthlyReminder = showReminder ∧
      (handleSendMonthly openOk expenses selectedMonth showReminder lastSent now
          monthToSend).events = []) := by
  cases openOk with
  | false => exact ⟨fun h => Bool.noConfusion h, fun _ => ⟨rfl, rfl, rfl, rfl⟩⟩
  | true => exact ⟨fun _ => ⟨_, _, rfl⟩, fun h => Bool.noConfusion h⟩

theorem dispatch_invocation_precedes_marker_witness :
    (handleSendMonthly false [] "2025-09" true (some "2025-08") ⟨2025, 8, 1, 0, 0, 0, 0⟩
        none).lastSent = some "2025-08" ∧
    (handleSendMonthly false [] "2025-09" true (some "2025-08") ⟨2025, 8, 1, 0, 0, 0, 0⟩
        none).showMonthlyReminder = true := by
  have h := dispatch_invocation_precedes_marker false [] "2025-09" true (some "2025-08")
    ⟨2025, 8, 1, 0, 0, 0, 0⟩ none
  exact ⟨(h.2 rfl).2.1, (h.2 rfl).2.2.1⟩

/-- C7: dismissing the reminder clears only the session's reminder-visible
flag; the ledger, the selected month and the persisted marker are unchanged,
so any session that starts while the marker is still a MonthKey different
from the then-current month gets REMINDER_PENDING again. -/
theorem dismiss_clears_flag_only (st : SessionState) (lastSent : Option String) :
    (dismissReminder st lastSent).1.showMonthlyReminder = false ∧
    (dismissReminder st lastSent).1.expenses = st.expenses ∧
    (dismissReminder st lastSent).1.selectedMonth = st.selectedMonth ∧
    (dismissReminder st lastSent).2 = lastSent ∧
    (∀ l current, (dismissReminder st lastSent).2 = some l → l ≠ "" → l ≠ current →
      rolloverCheck (dismissReminder st lastSent).2 current = true) := by
  refine ⟨rfl, rfl, rfl, rfl, ?_⟩
  intro l current hl hne hcur
  simp only [dismissReminder] at hl ⊢
  rw [hl]
  simp [rolloverCheck, hne, hcur]

theorem dismiss_clears_flag_only_witness :
    (dismissReminder ⟨[], "2025-09", true⟩ (some "2025-08")).1.showMonthlyReminder = false ∧
    rolloverCheck (dismissReminder ⟨[], "2025-09", true⟩ (some "2025-08")).2 "2025-09" = true := by
  have h := dismiss_clears_flag_only ⟨[], "2025-09", true⟩ (some "2025-08")
  exact ⟨h.1, h.2.2.2.2 "2025-08" "2025-09" rfl (by decide) (by decide)⟩

/-- C10: a confirmed `removeExpense(id)` removes exactly the entries whose
id equals the given id: the result is a sublist of the ledger (so every
surviving expense keeps all its fields and the relative order is
preserved), no surviving entry carries the removed id, every entry with a
different id survives, and when no entry carries the id the ledger is left
identical. -/
theorem remove_expense_exact (expenses : List Expense) (id : String) :
    (removeExpense true expenses id).Sublist expenses ∧
    (∀ x ∈ removeExpense true expenses id, x.id ≠ id) ∧
    (∀ x ∈ expenses, x.id ≠ id → x ∈ removeExpense true expenses id) ∧
    ((∀ x ∈ expenses, x.id ≠ id) → removeExpense true expenses id = expenses) := by
  have hre : removeExpense true expenses id = expenses.filter (fun x => x.id != id) := rfl
  rw [hre]
  refine ⟨List.filter_sublist _, ?_, ?_, ?_⟩
  · intro x hx
    have hmem := List.mem_filter.mp hx
    simpa [bne_iff_ne] using hmem.2
  · intro x hx hne
    exact List.mem_filter.mpr ⟨hx, by simpa [bne_iff_ne] using hne⟩
  · intro hall
    refine List.filter_eq_self.mpr ?_
    intro a ha
    simpa [bne_iff_ne] using hall a ha

theorem remove_expense_exact_witness :
    removeExpense true [⟨"a1", Json.num 5, "food", "", "2025-09-01T00:00:00.000Z"⟩] "zzz"
      = [⟨"a1", Json.num 5, "food", "", "2025-09-01T00:00:00.000Z"⟩] :=
  (remove_expense_exact [⟨"a1", Json.num 5, "food", "", "2025-09-01T00:00:00.000Z"⟩]
      "zzz").2.2.2
    (by
      intro x hx
      rw [List.mem_singleton] at hx
      rw [hx]
      decide)

/-- C4: the claim says `entriesForMonth` selects by comparing the
timestamp's own year and month components, not by textual prefix matching;
the code (`x.dateISO.startsWith(monthKey)`) does prefix-match the stored
string laterally, and the two disagree on a ledger the program itself can
produce.  For a creation instant in year 12025, month 09, `toISOString`
serializes the timestamp with an expanded six-digit signed year
(`"+012025-09-..."`) while `monthKeyFromDate` renders the MonthKey
`"12025-09"`; the entry's own components denote exactly that MonthKey (the
spec-side filter selects it) but the code's prefix filter misses it. -/
theorem month_filter_divergence :
    monthKeyFromDate ⟨12025, 8, 1, 0, 0, 0, 0⟩ = "12025-09" ∧
    toISOString ⟨12025, 8, 1, 0, 0, 0, 0⟩ = "+012025-09-01T00:00:00.000Z" ∧
    expensesForMonth
        [⟨"e1", Json.num 5, "food", "", "+012025-09-01T00:00:00.000Z"⟩] "12025-09" = [] ∧
    entriesForMonthSpec
        [⟨"e1", Json.num 5, "food", "", "+012025-09-01T00:00:00.000Z"⟩] "12025-09"
      = [⟨"e1", Json.num 5, "food", "", "+012025-09-01T00:00:00.000Z"⟩] :=
  ⟨rfl, rfl, rfl, rfl⟩

/-- C8 counterexample: a persisted payload that is valid JSON but not an
expense sequence — the JSON number `42` — is returned as-is by
`loadExpenses`, not replaced by the empty sequence. -/
theorem load_nonarray_payload_counterexample :
    loadExpenses (some (Except.ok (Json.num 42))) = Json.num 42 ∧
    Json.num 42 ≠ Json.arr [] :=
  ⟨rfl, fun h => Json.noConfusion h⟩

/-- C8 amended: `loadExpenses` returns the empty sequence when no payload is
stored or when parsing throws (no exception propagates — the function is
total), and returns the parsed value unvalidated whenever parsing succeeds;
in particular it returns the stored sequence when the payload is a
well-formed sequence, but a payload that parses to a non-sequence value is
returned as-is rather than treated as empty. -/
theorem load_expenses_amended (v : Json) (e : String) :
    loadExpenses none = Json.arr [] ∧
    loadExpenses (some (Except.error e)) = Json.arr [] ∧
    loadExpenses (some (Except.ok v)) = v :=
  ⟨rfl, rfl, rfl⟩

theorem load_expenses_amended_witness :
    loadExpenses (some (Except.ok (Json.arr [Json.num 1]))) = Json.arr [Json.num 1] :=
  (load_expenses_amended (Json.arr [Json.num 1]) "bad json").2.2

theorem total_foldl_numeric (l : List Expense) (init : ℚ)
    (hnum : ∀ e ∈ l, ∃ q : ℚ, e.amount = Json.num q) :
    l.foldl
        (fun s it => jsAdd s (toNumber (if jsTruthy it.amount then it.amount else Json.num 0)))
        (some init)
      = some (init + (l.map amountQ).sum) := by
  induction l generalizing init with
  | nil => simp
  | cons e l ih =>
    obtain ⟨q, hq⟩ := hnum e (List.mem_cons_self e l)
    have hstep : toNumber (if jsTruthy e.amount then e.amount else Json.num 0) = some q := by
      rw [hq]
      by_cases h0 : q = 0
      · subst h0; simp [jsTruthy, toNumber]
      · simp [jsTruthy, toNumber, h0]
    have hadd : jsAdd (some init) (some q) = some (init + q) := rfl
    rw [List.foldl_cons, hstep, hadd, ih (init + q) (fun x hx => hnum x (List.mem_cons_of_mem _ hx))]
    simp [amountQ, hq, add_assoc]

/-- C5 counterexample: on a ledger whose single September entry carries the
non-numeric amount `true`, `totalForMonth` is `1`, not the sum of the (zero)
numeric amounts: `true` is truthy, so `Number(it.amount || 0)` silently
coerces it to `1` and adds it to the sum. -/
theorem total_coerces_counterexample :
    totalForMonth [⟨"b1", Json.bool true, "gift", "", "2025-09-01T00:00:00.000Z"⟩] "2025-09"
        = some 1 ∧
    jsTruthy (Json.bool true) = true ∧
    toNumber (Json.bool true) = some 1 ∧
    amountQ ⟨"b1", Json.bool true, "gift", "", "2025-09-01T00:00:00.000Z"⟩ = 0 := by
  refine ⟨by with_unfolding_all rfl, rfl, rfl, rfl⟩

/-- C5 amended: when every entry the month filter selects carries a numeric
amount, `totalForMonth(L, m)` equals the exact sum of those amounts, and it
equals 0 when no entries match; but non-numeric amounts are not excluded or
flagged — a truthy non-numeric amount is coerced by `Number()` into the sum
(e.g. the amount `true` contributes `1`) and a falsy one contributes `0`. -/
theorem total_sum_of_numeric_amounts (expenses : List Expense) (monthKey : String)
    (hnum : ∀ e ∈ expensesForMonth expenses monthKey, ∃ q : ℚ, e.amount = Json.num q) :
    totalForMonth expenses monthKey
        = some (((expensesForMonth expenses monthKey).map amountQ).sum) ∧
    (expensesForMonth expenses monthKey = [] → totalForMonth expenses monthKey = some 0) := by
  constructor
  · have h := total_foldl_numeric (expensesForMonth expenses monthKey) 0 hnum
    rw [zero_add] at h
    exact h
  · intro hempty
    unfold totalForMonth
    rw [hempty]
    rfl

theorem total_sum_of_numeric_amounts_witness :
    totalForMonth
        [⟨"a1", Json.num (241 / 2), "food", "", "2025-08-03T10:00:00.000Z"⟩,
         ⟨"a2", Json.num 10, "bus", "", "2025-09-01T08:00:00.000Z"⟩] "2025-08"
      = some (241 / 2) := by
  have hfil : expensesForMonth
      [⟨"a1", Json.num (241 / 2), "food", "", "2025-08-03T10:00:00.000Z"⟩,
       ⟨"a2", Json.num 10, "bus", "", "2025-09-01T08:00:00.000Z"⟩] "2025-08"
      = [⟨"a1", Json.num (241 / 2), "food", "", "2025-08-03T10:00:00.000Z"⟩] := rfl
  have h := total_sum_of_numeric_amounts
    [⟨"a1", Json.num (241 / 2), "food", "", "2025-08-03T10:00:00.000Z"⟩,
     ⟨"a2", Json.num 10, "bus", "", "2025-09-01T08:00:00.000Z"⟩] "2025-08"
    (by
      intro e he
      rw [hfil, List.mem_singleton] at he
      exact ⟨241 / 2, by rw [he]⟩)
  rw [h.1, hfil]
  with_unfolding_all rfl

/-- C6 counterexample: an add-intent with the negative amount `-5` and a
non-empty reason is *accepted*: `Number("-5") = -5` is truthy, so the
validation `!amt || !reason.trim()` does not fire and the entry is appended
to the ledger. -/
theorem add_negative_amount_counterexample :
    jsNumber "-5" = some (-5) ∧
    (addExpense "-5" "food" "" [] "id1" ⟨2025, 8, 1, 0, 0, 0, 0⟩).rejected = false ∧
    (addExpense "-5" "food" "" [] "id1" ⟨2025, 8, 1, 0, 0, 0, 0⟩).expenses
      = [⟨"id1", Json.num (-5), "food", "", "2025-09-01T00:00:00.000Z"⟩] := by
  refine ⟨by with_unfolding_all rfl, by with_unfolding_all rfl, by with_unfolding_all rfl⟩

/-- C6 amended: an add-intent is rejected — with the ledger unchanged and
hence nothing new persisted — exactly when `Number(amount)` is NaN or `0`,
or the trimmed reason is empty; in particular amount `"0"` or reason `""`
is rejected, but a negative amount passes the handler's validation (only
the form input's `min="0"` attribute guards against it). -/
theorem add_expense_validation (amount reason notes : String) (expenses : List Expense)
    (newId : String) (now : JsDate) :
    ((addExpense amount reason notes expenses newId now).rejected = true ↔
      (jsNumber amount = none ∨ jsNumber amount = some 0 ∨ jsTrim reason = "")) ∧
    ((addExpense amount reason notes expenses newId now).rejected = true →
      (addExpense amount reason notes expenses newId now).expenses = expenses) := by
  unfold addExpense
  cases h : jsNumber amount with
  | none => simp
  | some q =>
    by_cases h0 : q = 0
    · subst h0
      simp
    · by_cases hr : jsTrim reason = ""
      · simp [h0, hr]
      · simp [h0, hr]

theorem add_expense_validation_witness :
    (addExpense "0" "food" "some notes" [] "id1" ⟨2025, 8, 1, 0, 0, 0, 0⟩).rejected = true ∧
    (addExpense "0" "food" "some notes" [] "id1" ⟨2025, 8, 1, 0, 0, 0, 0⟩).expenses = [] := by
  have h := add_expense_validation "0" "food" "some notes" [] "id1" ⟨2025, 8, 1, 0, 0, 0, 0⟩
  have hrej := h.1.mpr (Or.inr (Or.inl (by with_unfolding_all rfl)))
  exact ⟨hrej, h.2 hrej⟩

theorem toLocaleStringEnUS2_two_decimals (q : ℚ) :
    ∃ t o rest, t < 10 ∧ o < 10 ∧
      (toLocaleStringEnUS2 q).data.reverse
        = Nat.digitChar o :: Nat.digitChar t :: '.' :: rest := by
  have key : (toLocaleStringEnUS2 q).data.reverse
      = Nat.digitChar ((roundHalfExpand (q * 100)).natAbs % 100 % 10)
        :: Nat.digitChar ((roundHalfExpand (q * 100)).natAbs % 100 / 10)
        :: '.'
        :: ((if roundHalfExpand (q * 100) < 0 then "-" else "") ++
            String.mk
              (group3Rev (natStr ((roundHalfExpand (q * 100)).natAbs / 100)).data.reverse).reverse).data.reverse := by
    unfold toLocaleStringEnUS2
    simp [String.data_append, List.reverse_append]
  exact ⟨_, _, _, by omega, by omega, key⟩

/-- C9: the summary text is deterministic in the MonthKey and the total: it
is the fixed label, the human `MM/YYYY` rendering of the MonthKey, and the
total formatted by the fixed en-US convention, whose rendering always ends
in a decimal point followed by exactly two digits (e.g. for month
`"2025-08"` and total `120.50` the text contains `"08/2025"` and
`"120.50"` — see the witness). -/
theorem summary_text_format (mKey yr mon : String) (total : ℚ)
    (h : splitDash mKey = [yr, mon]) :
    buildSummaryBody mKey (some total)
        = FIXED_WHATSAPP_MESSAGE_LABEL ++ " " ++ mon ++ "/" ++ yr ++ "\nסה\"כ הוצאות: " ++
          formatCurrency (some total) ++ "\n(נשלח מהאתר)" ∧
    (∃ t o rest, t < 10 ∧ o < 10 ∧
      (formatCurrency (some total)).data.reverse
        = Nat.digitChar o :: Nat.digitChar t :: '.' :: rest) := by
  constructor
  · unfold buildSummaryBody
    rw [h]
    rfl
  · exact toLocaleStringEnUS2_two_decimals total

theorem summary_text_format_witness :
    splitDash "2025-08" = ["2025", "08"] ∧
    buildSummaryBody "2025-08" (some (241 / 2))
      = "סיכום הוצאות לחודש 08/2025\nסה\"כ הוצאות: 120.50\n(נשלח מהאתר)" := by
  refine ⟨rfl, ?_⟩
  rw [(summary_text_format "2025-08" "2025" "08" (241 / 2) rfl).1]
  with_unfolding_all rfl
